import Mathlib

/-!
Verification development for the Infinity Crypto Signals backend
(`server.js`): a shallow embedding of the SMC (smart-money-concepts)
detection pipeline — candle aggregation, structural detectors (BOS,
CHOCH, liquidity sweep), zone collectors (FVG, order block), marker
synthesis and multi-timeframe confluence — together with theorems
about the pipeline's documented behaviour.

Numbers are modelled as rationals (`ℚ`): the JavaScript source only
compares, copies and orders prices and times, so ordered-field
reasoning is faithful for the properties below.
-/

/-- A normalized OHLC candle, as produced by every provider mapper in
`fetchKlines`: `{time, open, high, low, close}`.  The JS field `open`
is spelled `open_` because `open` is a Lean keyword. -/
structure Candle where
  time : ℚ
  open_ : ℚ
  high : ℚ
  low : ℚ
  close : ℚ
deriving Repr, DecidableEq, Inhabited

/-- Result of `detectBOS`: `{type, time, level}` with `type` one of
`"BOS_BULLISH"` / `"BOS_BEARISH"`. -/
structure BOSEvent where
  type : String
  time : ℚ
  level : ℚ
deriving Repr, DecidableEq

/-- Result of `detectCHOCH`: `{type, time}` with `type` one of
`"CHOCH_BULLISH"` / `"CHOCH_BEARISH"`. -/
structure CHOCHEvent where
  type : String
  time : ℚ
deriving Repr, DecidableEq

/-- Result of `detectLiquiditySweep`: `{type, level, time}` with `type`
one of `"SWEEP_HIGH"` / `"SWEEP_LOW"`. -/
structure SweepEvent where
  type : String
  level : ℚ
  time : ℚ
deriving Repr, DecidableEq

/-- A fair-value-gap zone from `collectFVG`: `{type, lower, upper, time}`. -/
structure FVGZone where
  type : String
  lower : ℚ
  upper : ℚ
  time : ℚ
deriving Repr, DecidableEq

/-- An order-block zone from `collectOrderBlocks`: `{type, time, high, low}`. -/
structure OBZone where
  type : String
  time : ℚ
  high : ℚ
  low : ℚ
deriving Repr, DecidableEq

/-- A chart marker pushed by `buildSMCSignals`. -/
structure Marker where
  time : ℚ
  position : String
  color : String
  shape : String
  text : String
deriving Repr, DecidableEq

/-- The `smcSignals` field of a per-timeframe result. -/
structure SMCSignals where
  bos : Option BOSEvent
  choch : Option CHOCHEvent
  sweep : Option SweepEvent
deriving Repr, DecidableEq

/-- The full per-timeframe analysis result returned by `buildSMCSignals`
and consumed by `buildMtf`. -/
structure TFResult where
  candles : List Candle
  markers : List Marker
  smcSignals : SMCSignals
  fvgZones : List FVGZone
  orderBlocks : List OBZone
deriving Repr, DecidableEq

/-- An execution signal pushed by `buildMtf`: a spread copy of the LTF
marker (`{...m}`) plus `reason` and `price`. -/
structure ExecSignal where
  time : ℚ
  position : String
  color : String
  shape : String
  text : String
  reason : String
  price : ℚ
deriving Repr, DecidableEq

/-- The value returned by `buildMtf`: `{htfBias, executionSignals}`. -/
structure MtfResult where
  htfBias : String
  executionSignals : List ExecSignal
deriving Repr, DecidableEq

/-- JavaScript's `Array.prototype.sort` with comparator
`(a, b) => a.time - b.time`: a stable ascending sort on `time`,
modelled by Lean's stable `mergeSort`. -/
def sortCandles (l : List Candle) : List Candle :=
  l.mergeSort (fun a b => a.time ≤ b.time)

/-- `detectBOS` (server.js lines 208–225): looks at the 3rd-, 2nd- and
1st-from-last candles `a, b, d`; bullish when `d.high > a.high` and
`b.high <= a.high`, bearish when `d.low < a.low` and `b.low >= a.low`;
`null` when fewer than 3 candles or neither condition holds. -/
def detectBOS (candles : List Candle) : Option BOSEvent :=
  let n := candles.length
  if n < 3 then none
  else
    let a := candles.getD (n - 3) default
    let b := candles.getD (n - 2) default
    let d := candles.getD (n - 1) default
    if d.high > a.high ∧ b.high ≤ a.high then
      some { type := "BOS_BULLISH", time := d.time, level := a.high }
    else if d.low < a.low ∧ b.low ≥ a.low then
      some { type := "BOS_BEARISH", time := d.time, level := a.low }
    else none

/-- `detectCHOCH` (server.js lines 227–244): looks at candles at
`n-4` (`prev`), `n-2` (`swing`) and `n-1` (`last`); `null` when fewer
than 4 candles. -/
def detectCHOCH (candles : List Candle) : Option CHOCHEvent :=
  let n := candles.length
  if n < 4 then none
  else
    let prev := candles.getD (n - 4) default
    let swing := candles.getD (n - 2) default
    let last := candles.getD (n - 1) default
    if last.high > swing.high ∧ swing.low < prev.low then
      some { type := "CHOCH_BULLISH", time := last.time }
    else if last.low < swing.low ∧ swing.high > prev.high then
      some { type := "CHOCH_BEARISH", time := last.time }
    else none

/-- `detectLiquiditySweep` (server.js lines 246–263): looks at candles
at `n-3` (`a`), `n-2` (`b`) and `n-1` (`d`); `null` when fewer than 4
candles. -/
def detectLiquiditySweep (candles : List Candle) : Option SweepEvent :=
  let n := candles.length
  if n < 4 then none
  else
    let a := candles.getD (n - 3) default
    let b := candles.getD (n - 2) default
    let d := candles.getD (n - 1) default
    if d.high > a.high ∧ d.close < b.close then
      some { type := "SWEEP_HIGH", level := a.high, time := d.time }
    else if d.low < a.low ∧ d.close > b.close then
      some { type := "SWEEP_LOW", level := a.low, time := d.time }
    else none

/-- `collectFVG` (server.js lines 265–293): scans indices
`[max(2, n - depth), n)` comparing candle `i-2` with candle `i`;
either branch (or both) may push a zone at each index. -/
def collectFVG (candles : List Candle) (depth : Nat) : List FVGZone :=
  let start := max 2 (candles.length - depth)
  ((List.range candles.length).drop start).flatMap (fun i =>
    let a := candles.getD (i - 2) default
    let d := candles.getD i default
    (if a.high < d.low then
      [{ type := "FVG_BULLISH", lower := a.high, upper := d.low, time := d.time }]
     else []) ++
    (if d.high < a.low then
      [{ type := "FVG_BEARISH", lower := d.high, upper := a.low, time := d.time }]
     else []))

/-- `collectOrderBlocks` (server.js lines 295–333): scans the same
window comparing consecutive candles `prev = i-1` and `last = i`. -/
def collectOrderBlocks (candles : List Candle) (depth : Nat) : List OBZone :=
  let start := max 2 (candles.length - depth)
  ((List.range candles.length).drop start).flatMap (fun i =>
    let prev := candles.getD (i - 1) default
    let last := candles.getD i default
    (if prev.close < prev.open_ ∧ last.close > last.open_ ∧ last.close > prev.high then
      [{ type := "OB_BULLISH", time := prev.time, high := prev.high, low := prev.low }]
     else []) ++
    (if prev.close > prev.open_ ∧ last.close < last.open_ ∧ last.close < prev.low then
      [{ type := "OB_BEARISH", time := prev.time, high := prev.high, low := prev.low }]
     else []))

/-- The buy marker pushed by `buildSMCSignals`, timestamped at the
latest candle's time. -/
def buyMarker (t : ℚ) : Marker :=
  { time := t, position := "belowBar", color := "#00ff85",
    shape := "arrowUp", text := "BUY (CHOCH + Sweep)" }

/-- The sell marker pushed by `buildSMCSignals`, timestamped at the
latest candle's time. -/
def sellMarker (t : ℚ) : Marker :=
  { time := t, position := "aboveBar", color := "#ff5555",
    shape := "arrowDown", text := "SELL (CHOCH + Sweep)" }

/-- The marker-synthesis block of `buildSMCSignals` (server.js lines
349–372): `if (last && choch && sweep)` then two independent pushes
guarded by the CHOCH/Sweep type pairs. -/
def smcMarkers (lastC : Option Candle) (choch : Option CHOCHEvent)
    (sweep : Option SweepEvent) : List Marker :=
  match lastC, choch, sweep with
  | some last, some c, some s =>
      (if c.type = "CHOCH_BULLISH" ∧ s.type = "SWEEP_LOW" then
        [buyMarker last.time] else []) ++
      (if c.type = "CHOCH_BEARISH" ∧ s.type = "SWEEP_HIGH" then
        [sellMarker last.time] else [])
  | _, _, _ => []

/-- `buildSMCSignals` (server.js lines 339–381): copies and sorts the
input ascending by time, runs every detector and collector on the
sorted copy, and synthesizes markers from the last candle plus the
CHOCH and Sweep events. -/
def buildSMCSignals (candlesInput : List Candle) : TFResult :=
  let candles := sortCandles candlesInput
  let bos := detectBOS candles
  let choch := detectCHOCH candles
  let sweep := detectLiquiditySweep candles
  let fvgZones := collectFVG candles 60
  let orderBlocks := collectOrderBlocks candles 60
  let markers := smcMarkers candles.getLast? choch sweep
  { candles := candles, markers := markers,
    smcSignals := { bos := bos, choch := choch, sweep := sweep },
    fvgZones := fvgZones, orderBlocks := orderBlocks }

/-- JavaScript's `String.prototype.startsWith(search)`: the string's
leading characters equal `search`.  (Lean's own `String.startsWith`
does not reduce inside the kernel, so the JS semantics is embedded
directly over the character list.) -/
def jsStartsWith (s search : String) : Bool :=
  s.toList.take search.toList.length = search.toList

/-- `inside` (server.js lines 387–389): boundary-inclusive interval
membership `price >= low && price <= high`. -/
def inside (price low high : ℚ) : Bool :=
  price ≥ low ∧ price ≤ high

/-- `getLatest` (server.js lines 391–394): keep the entries whose
`type` matches, and return the last one or `null`. -/
def getLatest {α : Type} (arr : List α) (typeOf : α → String) (t : String) : Option α :=
  let f := arr.filter (fun z => typeOf z = t)
  f.getLast?

/-- The JS truthiness test `choch && choch.type === t`. -/
def chochTypeIs (choch : Option CHOCHEvent) (t : String) : Bool :=
  match choch with
  | some c => c.type = t
  | none => false

/-- The JS truthiness test `bos && bos.type === t`. -/
def bosTypeIs (bos : Option BOSEvent) (t : String) : Bool :=
  match bos with
  | some e => e.type = t
  | none => false

/-- The `htfBias` chained conditional of `buildMtf` (server.js lines
400–407): bullish wins, then bearish, else neutral. -/
def htfBiasOf (htf : TFResult) : String :=
  if chochTypeIs htf.smcSignals.choch ("CHOCH_BULLISH")
      || bosTypeIs htf.smcSignals.bos ("BOS_BULLISH") then "BULLISH"
  else if chochTypeIs htf.smcSignals.choch ("CHOCH_BEARISH")
      || bosTypeIs htf.smcSignals.bos ("BOS_BEARISH") then "BEARISH"
  else "NEUTRAL"

/-- One loop iteration's pushes in `buildMtf` (server.js lines
421–437): up to four signals per marker, one per matching zone kind. -/
def execSignalFor (m : Marker) (price : ℚ) (htfBias : String)
    (bullFvg bearFvg : Option FVGZone) (bullOb bearOb : Option OBZone) : List ExecSignal :=
  (if jsStartsWith m.text ("BUY") ∧ htfBias = "BULLISH" then
    (match bullFvg with
     | some z =>
        if inside price z.lower z.upper then
          [{ time := m.time, position := m.position, color := m.color,
             shape := m.shape, text := m.text, reason := "BUY in HTF FVG",
             price := price }]
        else []
     | none => []) ++
    (match bullOb with
     | some z =>
        if inside price z.low z.high then
          [{ time := m.time, position := m.position, color := m.color,
             shape := m.shape, text := m.text, reason := "BUY in HTF Order Block",
             price := price }]
        else []
     | none => [])
   else []) ++
  (if jsStartsWith m.text ("SELL") ∧ htfBias = "BEARISH" then
    (match bearFvg with
     | some z =>
        if inside price z.lower z.upper then
          [{ time := m.time, position := m.position, color := m.color,
             shape := m.shape, text := m.text, reason := "SELL in HTF FVG",
             price := price }]
        else []
     | none => []) ++
    (match bearOb with
     | some z =>
        if inside price z.low z.high then
          [{ time := m.time, position := m.position, color := m.color,
             shape := m.shape, text := m.text, reason := "SELL in HTF Order Block",
             price := price }]
        else []
     | none => [])
   else [])

/-- The `for (const m of ltf.markers)` loop of `buildMtf` (server.js
lines 418–438).  `price?` is `lastCandle?.close`; the guard
`if (!price) break` aborts the whole loop when the price is missing
(`undefined`) or `0` (both falsy in JS). -/
def collectExecSignals (priceOpt : Option ℚ) (htfBias : String)
    (bullFvg bearFvg : Option FVGZone) (bullOb bearOb : Option OBZone) :
    List Marker → List ExecSignal
  | [] => []
  | m :: rest =>
    match priceOpt with
    | none => []
    | some price =>
      if price = 0 then []
      else
        execSignalFor m price htfBias bullFvg bearFvg bullOb bearOb ++
        collectExecSignals priceOpt htfBias bullFvg bearFvg bullOb bearOb rest

/-- `buildMtf` (server.js lines 396–444): derive the HTF bias, select
the latest zone of each kind, take the LTF last close as trigger
price, and filter/duplicate the LTF markers into execution signals. -/
def buildMtf (htf ltf : TFResult) : MtfResult :=
  let htfBias := htfBiasOf htf
  let bullFvg := getLatest htf.fvgZones (fun z => z.type) ("FVG_BULLISH")
  let bearFvg := getLatest htf.fvgZones (fun z => z.type) ("FVG_BEARISH")
  let bullOb := getLatest htf.orderBlocks (fun z => z.type) ("OB_BULLISH")
  let bearOb := getLatest htf.orderBlocks (fun z => z.type) ("OB_BEARISH")
  let lastCandle := ltf.candles.getLast?
  let priceOpt := lastCandle.map (fun c => c.close)
  { htfBias := htfBias,
    executionSignals :=
      collectExecSignals priceOpt htfBias bullFvg bearFvg bullOb bearOb ltf.markers }

/-- The observable outcome of contacting one provider in `fetchKlines`
(server.js lines 151–201): the `fetch`/`json()` call throws, or the
response status is not ok, or the response maps to a candle list
(possibly empty). -/
inductive FetchOutcome
  | fetchError (msg : String)
  | httpError (status : Nat) (statusText : String)
  | respOk (mapped : List Candle)
deriving Repr, DecidableEq

/-- One entry of the `sources` array: its `name` plus the outcome its
`url`/`map` pair produces on this call. -/
structure Source where
  name : String
  outcome : FetchOutcome
deriving Repr, DecidableEq

/-- The provider loop of `fetchKlines` (server.js lines 151–201),
threading `lastError`: transport errors, non-ok statuses and empty
mapped results advance to the next source; the first non-empty mapped
result is sorted ascending by time and returned with the source name;
exhaustion throws the last error (or a generic message). -/
def fetchKlinesGo : List Source → Option String → Except String (List Candle × String)
  | [], lastError => .error (lastError.getD ("All price sources failed"))
  | src :: rest, _lastError =>
    match src.outcome with
    | .fetchError msg => fetchKlinesGo rest (some msg)
    | .httpError status statusText =>
        fetchKlinesGo rest
          (some (src.name ++ " responded " ++ toString status ++ " " ++ statusText))
    | .respOk mapped =>
        if mapped.length > 0 then .ok (sortCandles mapped, src.name)
        else fetchKlinesGo rest (some (src.name ++ " returned empty data"))

/-- `fetchKlines` over an abstract priority-ordered source list, with
no error recorded yet. -/
def fetchKlines (sources : List Source) : Except String (List Candle × String) :=
  fetchKlinesGo sources none

/-! Concrete inputs used in witnesses and counterexamples. -/

/-- Candle with high 10 and low 5: both BOS conditions can fire against it. -/
def cexA : Candle := { time := 0, open_ := 0, high := 10, low := 5, close := 0 }

/-- Inside candle (high 9, low 6): fails to break either side of `cexA`. -/
def cexB : Candle := { time := 1, open_ := 0, high := 9, low := 6, close := 0 }

/-- Engulfing candle (high 11, low 4): breaks both sides of `cexA`. -/
def cexD : Candle := { time := 2, open_ := 0, high := 11, low := 4, close := 0 }

/-- Candle with high 10 (spec example, prior swing). -/
def k10 : Candle := { time := 0, open_ := 0, high := 10, low := 0, close := 0 }

/-- Candle with high 9 (spec example, failed middle candle). -/
def k9 : Candle := { time := 1, open_ := 0, high := 9, low := 0, close := 0 }

/-- Candle with high 11 (spec example, breaking candle). -/
def k11 : Candle := { time := 2, open_ := 0, high := 11, low := 0, close := 0 }

/-- Bearish-only BOS example: prior swing low 5. -/
def wA : Candle := { time := 0, open_ := 0, high := 10, low := 5, close := 0 }

/-- Bearish-only BOS example: middle candle stays above the prior low. -/
def wB : Candle := { time := 1, open_ := 0, high := 9, low := 6, close := 0 }

/-- Bearish-only BOS example: last candle breaks the low but not the high. -/
def wD : Candle := { time := 2, open_ := 0, high := 9, low := 4, close := 0 }

/-- CHOCH+Sweep example, candle 0 (`prev` for CHOCH). -/
def w0 : Candle := { time := 0, open_ := 0, high := 10, low := 5, close := 0 }

/-- CHOCH+Sweep example, candle 1 (`a` for the sweep). -/
def w1 : Candle := { time := 1, open_ := 0, high := 8, low := 4, close := 5 }

/-- CHOCH+Sweep example, candle 2 (`swing` / `b`). -/
def w2 : Candle := { time := 2, open_ := 0, high := 9, low := 3, close := 4 }

/-- CHOCH+Sweep example, candle 3 (`last` / `d`): bullish CHOCH with a low sweep. -/
def w3 : Candle := { time := 3, open_ := 0, high := 10, low := 2, close := 6 }

/-- A 4-candle sequence (already ascending) whose analysis yields a
bullish CHOCH and a SWEEP_LOW, hence a buy marker. -/
def wInput : List Candle := [w0, w1, w2, w3]

/-- An HTF result with no structural events at all (neutral bias) but
non-trivial zone lists. -/
def htfNeutral : TFResult :=
  { candles := [], markers := [],
    smcSignals := { bos := none, choch := none, sweep := none },
    fvgZones := [{ type := "FVG_BULLISH", lower := 0, upper := 10, time := 0 }],
    orderBlocks := [{ type := "OB_BULLISH", time := 0, high := 10, low := 0 }] }

/-- An HTF result whose CHOCH is bullish while its BOS is bearish: the
two disagree in direction. -/
def htfConflict : TFResult :=
  { candles := [], markers := [],
    smcSignals := { bos := some { type := "BOS_BEARISH", time := 0, level := 1 },
                    choch := some { type := "CHOCH_BULLISH", time := 0 },
                    sweep := none },
    fvgZones := [], orderBlocks := [] }

/-- An LTF result with no candles and no markers. -/
def ltfEmpty : TFResult :=
  { candles := [], markers := [],
    smcSignals := { bos := none, choch := none, sweep := none },
    fvgZones := [], orderBlocks := [] }

/-- An LTF result carrying both a buy and a sell marker and a last
close of 5. -/
def ltfBusy : TFResult :=
  { candles := [{ time := 0, open_ := 0, high := 0, low := 0, close := 5 }],
    markers := [buyMarker 0, sellMarker 0],
    smcSignals := { bos := none, choch := none, sweep := none },
    fvgZones := [], orderBlocks := [] }

/-- An HTF result with bullish bias (bullish CHOCH) and exactly one
bullish FVG zone with the given bounds. -/
def htfBullFvg (lo hi : ℚ) : TFResult :=
  { candles := [], markers := [],
    smcSignals := { bos := none,
                    choch := some { type := "CHOCH_BULLISH", time := 0 },
                    sweep := none },
    fvgZones := [{ type := "FVG_BULLISH", lower := lo, upper := hi, time := 0 }],
    orderBlocks := [] }

/-- An LTF result with one buy marker and one candle closing at `price`. -/
def ltfBuyAt (price : ℚ) : TFResult :=
  { candles := [{ time := 0, open_ := 0, high := 0, low := 0, close := price }],
    markers := [buyMarker 0],
    smcSignals := { bos := none, choch := none, sweep := none },
    fvgZones := [], orderBlocks := [] }

/-- A first provider that answers with two (already ascending) candles. -/
def srcGood : Source := { name := "OKX", outcome := .respOk [k10, k11] }

/-- A later provider that would also answer, but must never be used. -/
def srcBad : Source := { name := "BYBIT", outcome := .respOk [cexA] }

/-! Helper lemmas. -/

/-- Indexing into the appended tail `[a, b, d]`. -/
theorem getD_append3 (pre : List Candle) (a b d : Candle) (k : Nat) (hk : k < 3) :
    (pre ++ [a, b, d]).getD (pre.length + k) default = [a, b, d].getD k default := by
  rw [List.getD_append_right pre [a, b, d] default (pre.length + k) (by omega)]
  congr 1
  omega

/-- Equation for `detectBOS` on a sequence with an explicit last three
candles. -/
theorem detectBOS_append3 (pre : List Candle) (a b d : Candle) :
    detectBOS (pre ++ [a, b, d]) =
      (if d.high > a.high ∧ b.high ≤ a.high then
        some { type := "BOS_BULLISH", time := d.time, level := a.high }
      else if d.low < a.low ∧ b.low ≥ a.low then
        some { type := "BOS_BEARISH", time := d.time, level := a.low }
      else none) := by
  have hlen : (pre ++ [a, b, d]).length = pre.length + 3 := by simp
  have e0 : pre.length + 3 - 3 = pre.length + 0 := by omega
  have e1 : pre.length + 3 - 2 = pre.length + 1 := by omega
  have e2 : pre.length + 3 - 1 = pre.length + 2 := by omega
  simp only [detectBOS, hlen, e0, e1, e2,
    getD_append3 pre a b d 0 (by omega),
    getD_append3 pre a b d 1 (by omega),
    getD_append3 pre a b d 2 (by omega)]
  rw [if_neg (by omega)]
  rfl

/-- `detectBOS` yields nothing on sequences shorter than 3. -/
theorem detectBOS_eq_none_of_short (candles : List Candle)
    (h : candles.length < 3) : detectBOS candles = none := by
  simp [detectBOS, h]

/-- `detectCHOCH` yields nothing on sequences shorter than 4. -/
theorem detectCHOCH_eq_none_of_short (candles : List Candle)
    (h : candles.length < 4) : detectCHOCH candles = none := by
  simp [detectCHOCH, h]

/-- `detectLiquiditySweep` yields nothing on sequences shorter than 4. -/
theorem detectLiquiditySweep_eq_none_of_short (candles : List Candle)
    (h : candles.length < 4) : detectLiquiditySweep candles = none := by
  simp [detectLiquiditySweep, h]

/-- Sorting preserves the candle multiset. -/
theorem sortCandles_perm (l : List Candle) : (sortCandles l).Perm l :=
  List.mergeSort_perm l _

/-- The sorted copy is ascending in time. -/
theorem sortCandles_sorted (l : List Candle) :
    (sortCandles l).Pairwise (fun x y => x.time ≤ y.time) := by
  have h := @List.sorted_mergeSort Candle (fun a b => decide (a.time ≤ b.time))
    (fun a b c hab hbc => by
      simp only [decide_eq_true_eq] at *
      exact le_trans hab hbc)
    (fun a b => by
      simp only [Bool.or_eq_true, decide_eq_true_eq]
      exact le_total a.time b.time)
    l
  exact h.imp (fun hab => of_decide_eq_true hab)

/-- Sorting returns the empty list only on the empty list. -/
theorem sortCandles_eq_nil_iff (l : List Candle) : sortCandles l = [] ↔ l = [] := by
  constructor <;> intro h
  · have hlen := congrArg List.length h
    simp only [sortCandles, List.length_mergeSort, List.length_nil] at hlen
    exact List.length_eq_zero.mp hlen
  · rw [h]
    exact List.mergeSort_nil

/-- The truthy CHOCH-type test, unfolded to a proposition. -/
theorem chochTypeIs_iff (o : Option CHOCHEvent) (t : String) :
    chochTypeIs o t = true ↔ ∃ c, o = some c ∧ c.type = t := by
  cases o <;> simp [chochTypeIs]

/-- The truthy BOS-type test, unfolded to a proposition. -/
theorem bosTypeIs_iff (o : Option BOSEvent) (t : String) :
    bosTypeIs o t = true ↔ ∃ e, o = some e ∧ e.type = t := by
  cases o <;> simp [bosTypeIs]

/-- A marker contributes no execution signal when the bias is neither
bullish nor bearish. -/
theorem execSignalFor_eq_nil (m : Marker) (price : ℚ) (bias : String)
    (h1 : bias ≠ "BULLISH") (h2 : bias ≠ "BEARISH")
    (bullFvg bearFvg : Option FVGZone) (bullOb bearOb : Option OBZone) :
    execSignalFor m price bias bullFvg bearFvg bullOb bearOb = [] := by
  simp [execSignalFor, h1, h2]

/-- The marker loop produces nothing when the bias is neither bullish
nor bearish. -/
theorem collectExecSignals_eq_nil (priceOpt : Option ℚ) (bias : String)
    (h1 : bias ≠ "BULLISH") (h2 : bias ≠ "BEARISH")
    (bullFvg bearFvg : Option FVGZone) (bullOb bearOb : Option OBZone)
    (ms : List Marker) :
    collectExecSignals priceOpt bias bullFvg bearFvg bullOb bearOb ms = [] := by
  induction ms with
  | nil => rfl
  | cons m rest ih =>
    cases priceOpt with
    | none => rfl
    | some price =>
      by_cases hp : price = 0
      · simp [collectExecSignals, hp]
      · simp [collectExecSignals, hp, ih,
          execSignalFor_eq_nil m price bias h1 h2 bullFvg bearFvg bullOb bearOb]

/-- The marker loop produces nothing from an empty marker list. -/
theorem collectExecSignals_nil (priceOpt : Option ℚ) (bias : String)
    (bullFvg bearFvg : Option FVGZone) (bullOb bearOb : Option OBZone) :
    collectExecSignals priceOpt bias bullFvg bearFvg bullOb bearOb [] = [] := rfl

/-- No marker is synthesized without a CHOCH event. -/
theorem smcMarkers_choch_none (lastC : Option Candle) (sweep : Option SweepEvent) :
    smcMarkers lastC none sweep = [] := by
  cases lastC <;> cases sweep <;> rfl

/-- Membership characterization for the synthesized markers. -/
theorem mem_smcMarkers (lastC : Option Candle) (choch : Option CHOCHEvent)
    (sweep : Option SweepEvent) (m : Marker) :
    m ∈ smcMarkers lastC choch sweep ↔
      ∃ last c s, lastC = some last ∧ choch = some c ∧ sweep = some s ∧
        ((c.type = "CHOCH_BULLISH" ∧ s.type = "SWEEP_LOW" ∧ m = buyMarker last.time) ∨
         (c.type = "CHOCH_BEARISH" ∧ s.type = "SWEEP_HIGH" ∧ m = sellMarker last.time)) := by
  cases lastC with
  | none => simp [smcMarkers]
  | some last =>
    cases choch with
    | none => simp [smcMarkers]
    | some c =>
      cases sweep with
      | none => simp [smcMarkers]
      | some s =>
        simp only [smcMarkers, List.mem_append]
        split_ifs with h1 h2 h2 <;> simp_all

/-! Claim theorems. -/

/-- Claim C5: for every candle sequence of length less than 3, BOS
detection returns no event; and for every candle sequence of length
less than 4, both CHOCH detection and liquidity-sweep detection return
no event. -/
theorem claim_short_sequences_no_event (candles : List Candle) :
    (candles.length < 3 → detectBOS candles = none) ∧
    (candles.length < 4 →
      detectCHOCH candles = none ∧ detectLiquiditySweep candles = none) := by
  exact ⟨fun h => detectBOS_eq_none_of_short candles h,
    fun h => ⟨detectCHOCH_eq_none_of_short candles h,
      detectLiquiditySweep_eq_none_of_short candles h⟩⟩

/-- Witness for C5 at the concrete two-candle sequence `[cexA, cexB]`. -/
theorem claim_short_sequences_no_event_witness :
    detectBOS [cexA, cexB] = none ∧
    detectCHOCH [cexA, cexB] = none ∧ detectLiquiditySweep [cexA, cexB] = none :=
  ⟨(claim_short_sequences_no_event [cexA, cexB]).1 (by decide),
   ((claim_short_sequences_no_event [cexA, cexB]).2 (by decide)).1,
   ((claim_short_sequences_no_event [cexA, cexB]).2 (by decide)).2⟩

/-- Claim C4: on any sequence whose last three candles are `a, b, d`,
`detectBOS` returns a bullish break-of-structure event exactly when
`d.high > a.high` and `b.high ≤ a.high`, and that event carries
`level = a.high` and `time = d.time`. -/
theorem claim_detectBOS_bullish_iff (pre : List Candle) (a b d : Candle) :
    ((d.high > a.high ∧ b.high ≤ a.high) →
      detectBOS (pre ++ [a, b, d]) =
        some { type := "BOS_BULLISH", time := d.time, level := a.high }) ∧
    (∀ e, detectBOS (pre ++ [a, b, d]) = some e → e.type = "BOS_BULLISH" →
      (d.high > a.high ∧ b.high ≤ a.high) ∧ e.level = a.high ∧ e.time = d.time) := by
  constructor
  · intro h
    rw [detectBOS_append3, if_pos h]
  · intro e he ht
    rw [detectBOS_append3] at he
    split at he
    · cases he
      exact ⟨‹_›, rfl, rfl⟩
    · split at he
      · cases he
        simp at ht
      · exact absurd he (by simp)

/-- Witness for C4: the spec's example `[{h:10},{h:9},{h:11}]` yields
a bullish BOS at level 10. -/
theorem claim_detectBOS_bullish_iff_witness :
    detectBOS ([] ++ [k10, k9, k11]) =
      some { type := "BOS_BULLISH", time := 2, level := 10 } :=
  (claim_detectBOS_bullish_iff [] k10 k9 k11).1 (by decide)

/-- Claim C3 counterexample: the bullish BOS condition and the bearish
BOS condition are not mutually exclusive — on the concrete 3-candle
sequence `[cexA, cexB, cexD]` (an engulfing last candle after an
inside middle candle) both hold simultaneously, and `detectBOS`
returns the bullish event only because the bullish branch is checked
first. -/
theorem claim_bos_conditions_both_hold :
    (cexD.high > cexA.high ∧ cexB.high ≤ cexA.high) ∧
    (cexD.low < cexA.low ∧ cexB.low ≥ cexA.low) ∧
    detectBOS [cexA, cexB, cexD] =
      some { type := "BOS_BULLISH", time := 2, level := 10 } := by
  decide

/-- Claim C3 (amended): the two BOS conditions are not mutually
exclusive, but the bearish branch of `detectBOS` is still only
reachable when the bullish condition is false, because the bullish
branch is checked first: any bearish result implies the bullish
condition failed and the bearish condition held. -/
theorem claim_detectBOS_bearish_only_if_not_bullish (pre : List Candle)
    (a b d : Candle) (e : BOSEvent)
    (he : detectBOS (pre ++ [a, b, d]) = some e)
    (ht : e.type = "BOS_BEARISH") :
    ¬(d.high > a.high ∧ b.high ≤ a.high) ∧ (d.low < a.low ∧ b.low ≥ a.low) := by
  rw [detectBOS_append3] at he
  split at he
  · cases he
    simp at ht
  · split at he
    · cases he
      exact ⟨‹_›, ‹_›⟩
    · exact absurd he (by simp)

/-- Witness for the amended C3 at a concrete bearish-only sequence. -/
theorem claim_detectBOS_bearish_only_if_not_bullish_witness :
    ¬(wD.high > wA.high ∧ wB.high ≤ wA.high) ∧ (wD.low < wA.low ∧ wB.low ≥ wA.low) :=
  claim_detectBOS_bearish_only_if_not_bullish [] wA wB wD
    { type := "BOS_BEARISH", time := 2, level := 5 } (by decide) (by decide)

/-- Claim C1: whenever the combiner's derived higher-timeframe bias is
neutral, `buildMtf` returns an empty `executionSignals` list, whatever
markers or zones the lower timeframe carries. -/
theorem claim_neutral_bias_no_signals (htf ltf : TFResult)
    (h : (buildMtf htf ltf).htfBias = "NEUTRAL") :
    (buildMtf htf ltf).executionSignals = [] := by
  have hb : htfBiasOf htf = "NEUTRAL" := h
  show collectExecSignals _ (htfBiasOf htf) _ _ _ _ ltf.markers = []
  rw [hb]
  exact collectExecSignals_eq_nil _ _ (by decide) (by decide) _ _ _ _ _

/-- Witness for C1: a neutral HTF with non-trivial zones and an LTF
with both markers and a non-zero close still yields no signals. -/
theorem claim_neutral_bias_no_signals_witness :
    (buildMtf htfNeutral ltfBusy).executionSignals = [] :=
  claim_neutral_bias_no_signals htfNeutral ltfBusy (by decide)

/-- Claim C2: the combiner's derived bias is bullish if the HTF CHOCH
is bullish or the HTF BOS is bullish; otherwise bearish if either is
bearish; otherwise neutral.  In particular bullish is checked first,
so a bullish CHOCH together with a bearish BOS yields a bullish bias. -/
theorem claim_htfBias_derivation (htf ltf : TFResult) :
    (((∃ c, htf.smcSignals.choch = some c ∧ c.type = "CHOCH_BULLISH") ∨
      (∃ e, htf.smcSignals.bos = some e ∧ e.type = "BOS_BULLISH")) →
      (buildMtf htf ltf).htfBias = "BULLISH") ∧
    ((¬ ((∃ c, htf.smcSignals.choch = some c ∧ c.type = "CHOCH_BULLISH") ∨
         (∃ e, htf.smcSignals.bos = some e ∧ e.type = "BOS_BULLISH"))) →
      ((∃ c, htf.smcSignals.choch = some c ∧ c.type = "CHOCH_BEARISH") ∨
       (∃ e, htf.smcSignals.bos = some e ∧ e.type = "BOS_BEARISH")) →
      (buildMtf htf ltf).htfBias = "BEARISH") ∧
    ((¬ ((∃ c, htf.smcSignals.choch = some c ∧ c.type = "CHOCH_BULLISH") ∨
         (∃ e, htf.smcSignals.bos = some e ∧ e.type = "BOS_BULLISH"))) →
     (¬ ((∃ c, htf.smcSignals.choch = some c ∧ c.type = "CHOCH_BEARISH") ∨
         (∃ e, htf.smcSignals.bos = some e ∧ e.type = "BOS_BEARISH"))) →
      (buildMtf htf ltf).htfBias = "NEUTRAL") := by
  have hb : (buildMtf htf ltf).htfBias = htfBiasOf htf := rfl
  simp only [hb, htfBiasOf, Bool.or_eq_true, chochTypeIs_iff, bosTypeIs_iff]
  refine ⟨fun h => ?_, fun hn hbear => ?_, fun hn1 hn2 => ?_⟩
  · rw [if_pos h]
  · rw [if_neg hn, if_pos hbear]
  · rw [if_neg hn1, if_neg hn2]

/-- Witness for C2 at the disagreement case: bullish CHOCH plus
bearish BOS derives a bullish bias. -/
theorem claim_htfBias_derivation_witness :
    (buildMtf htfConflict ltfEmpty).htfBias = "BULLISH" :=
  (claim_htfBias_derivation htfConflict ltfEmpty).1
    (Or.inl ⟨{ type := "CHOCH_BULLISH", time := 0 }, rfl, rfl⟩)

/-- Claim C6: for every non-empty candle sequence, `buildSMCSignals`
emits a buy marker exactly when the analyzed CHOCH is bullish and the
analyzed sweep is a low sweep (sell marker on the bearish/high-sweep
mirror), and every emitted marker is timestamped at the last candle of
the (sorted) sequence, not at the underlying events' times. -/
theorem claim_marker_synthesis (input : List Candle) (h : input ≠ []) :
    ∃ lc, (buildSMCSignals input).candles.getLast? = some lc ∧
      ((∃ m ∈ (buildSMCSignals input).markers, m.text = "BUY (CHOCH + Sweep)") ↔
        (∃ c s, (buildSMCSignals input).smcSignals.choch = some c ∧
          c.type = "CHOCH_BULLISH" ∧
          (buildSMCSignals input).smcSignals.sweep = some s ∧
          s.type = "SWEEP_LOW")) ∧
      ((∃ m ∈ (buildSMCSignals input).markers, m.text = "SELL (CHOCH + Sweep)") ↔
        (∃ c s, (buildSMCSignals input).smcSignals.choch = some c ∧
          c.type = "CHOCH_BEARISH" ∧
          (buildSMCSignals input).smcSignals.sweep = some s ∧
          s.type = "SWEEP_HIGH")) ∧
      (∀ m ∈ (buildSMCSignals input).markers, m.time = lc.time) := by
  have hne : (buildSMCSignals input).candles ≠ [] := fun hnil =>
    h ((sortCandles_eq_nil_iff input).mp hnil)
  obtain ⟨lc, hlc⟩ := Option.isSome_iff_exists.mp (List.getLast?_isSome.mpr hne)
  have hm : (buildSMCSignals input).markers =
      smcMarkers (buildSMCSignals input).candles.getLast?
        (buildSMCSignals input).smcSignals.choch
        (buildSMCSignals input).smcSignals.sweep := rfl
  refine ⟨lc, hlc, ⟨?_, ?_⟩, ⟨?_, ?_⟩, ?_⟩
  · rintro ⟨m, hmem, htext⟩
    rw [hm, hlc, mem_smcMarkers] at hmem
    obtain ⟨last, c, s, hlast, hch, hsw, hcase⟩ := hmem
    rcases hcase with ⟨hc, hs, hbuy⟩ | ⟨hc, hs, hsell⟩
    · exact ⟨c, s, hch, hc, hsw, hs⟩
    · rw [hsell] at htext
      simp [sellMarker] at htext
  · rintro ⟨c, s, hch, hc, hsw, hs⟩
    refine ⟨buyMarker lc.time, ?_, by simp [buyMarker]⟩
    rw [hm, hlc, mem_smcMarkers]
    exact ⟨lc, c, s, rfl, hch, hsw, Or.inl ⟨hc, hs, rfl⟩⟩
  · rintro ⟨m, hmem, htext⟩
    rw [hm, hlc, mem_smcMarkers] at hmem
    obtain ⟨last, c, s, hlast, hch, hsw, hcase⟩ := hmem
    rcases hcase with ⟨hc, hs, hbuy⟩ | ⟨hc, hs, hsell⟩
    · rw [hbuy] at htext
      simp [buyMarker] at htext
    · exact ⟨c, s, hch, hc, hsw, hs⟩
  · rintro ⟨c, s, hch, hc, hsw, hs⟩
    refine ⟨sellMarker lc.time, ?_, by simp [sellMarker]⟩
    rw [hm, hlc, mem_smcMarkers]
    exact ⟨lc, c, s, rfl, hch, hsw, Or.inr ⟨hc, hs, rfl⟩⟩
  · intro m hmem
    rw [hm, hlc, mem_smcMarkers] at hmem
    obtain ⟨last, c, s, hlast, hch, hsw, hcase⟩ := hmem
    have hl : lc = last := by injection hlast
    rcases hcase with ⟨hc, hs, hbuy⟩ | ⟨hc, hs, hsell⟩
    · rw [hbuy, ← hl]
      simp [buyMarker]
    · rw [hsell, ← hl]
      simp [sellMarker]

/-- Witness for C6 at the concrete 4-candle sequence `wInput`. -/
theorem claim_marker_synthesis_witness :
    ∃ lc, (buildSMCSignals wInput).candles.getLast? = some lc ∧
      ((∃ m ∈ (buildSMCSignals wInput).markers, m.text = "BUY (CHOCH + Sweep)") ↔
        (∃ c s, (buildSMCSignals wInput).smcSignals.choch = some c ∧
          c.type = "CHOCH_BULLISH" ∧
          (buildSMCSignals wInput).smcSignals.sweep = some s ∧
          s.type = "SWEEP_LOW")) ∧
      ((∃ m ∈ (buildSMCSignals wInput).markers, m.text = "SELL (CHOCH + Sweep)") ↔
        (∃ c s, (buildSMCSignals wInput).smcSignals.choch = some c ∧
          c.type = "CHOCH_BEARISH" ∧
          (buildSMCSignals wInput).smcSignals.sweep = some s ∧
          s.type = "SWEEP_HIGH")) ∧
      (∀ m ∈ (buildSMCSignals wInput).markers, m.time = lc.time) :=
  claim_marker_synthesis wInput (by decide)

/-- The buy-marker label starts with `"BUY"`. -/
theorem jsStartsWith_buy_text :
    jsStartsWith ("BUY (CHOCH + Sweep)") ("BUY") = true := by decide

/-- The buy-marker label does not start with `"SELL"`. -/
theorem jsStartsWith_buy_text_sell :
    jsStartsWith ("BUY (CHOCH + Sweep)") ("SELL") = false := by decide

/-- The sell-marker label starts with `"SELL"`. -/
theorem jsStartsWith_sell_text :
    jsStartsWith ("SELL (CHOCH + Sweep)") ("SELL") = true := by decide

/-- The sell-marker label does not start with `"BUY"`. -/
theorem jsStartsWith_sell_text_buy :
    jsStartsWith ("SELL (CHOCH + Sweep)") ("BUY") = false := by decide

/-- Claim C7 counterexample: with a bullish HTF bias, a bullish FVG
zone `[0, 5]` and a buy marker whose trigger price equals the zone's
lower bound `0`, `inside` accepts the price but `buildMtf` produces no
execution signal: the loop guard `if (!price) break` treats the falsy
close `0` as missing.  The claim's "qualifies" part therefore fails
for a boundary trigger price of zero. -/
theorem claim_boundary_zero_price_no_signal :
    inside 0 0 5 = true ∧
    (buildMtf (htfBullFvg 0 5) (ltfBuyAt 0)).executionSignals = [] := by
  decide

/-- Claim C7 (amended): zone membership is boundary-inclusive on both
ends — `inside` accepts a price equal to either bound — and a buy
marker at such a boundary price qualifies under matching bias,
provided the trigger price is not the falsy value `0` (which the
combiner's loop guard treats as a missing price). -/
theorem claim_inside_boundary_inclusive (lo hi price : ℚ) (hlh : lo ≤ hi)
    (hp : price = lo ∨ price = hi) :
    inside price lo hi = true ∧
    (price ≠ 0 →
      (buildMtf (htfBullFvg lo hi) (ltfBuyAt price)).executionSignals =
        [{ time := 0, position := "belowBar", color := "#00ff85",
           shape := "arrowUp", text := "BUY (CHOCH + Sweep)",
           reason := "BUY in HTF FVG", price := price }]) := by
  have hin : inside price lo hi = true := by
    simp only [inside, decide_eq_true_eq]
    rcases hp with hp | hp <;> subst hp
    · exact ⟨le_refl price, hlh⟩
    · exact ⟨hlh, le_refl price⟩
  refine ⟨hin, fun hz => ?_⟩
  simp [buildMtf, htfBullFvg, ltfBuyAt, htfBiasOf, chochTypeIs, bosTypeIs,
    getLatest, collectExecSignals, execSignalFor, buyMarker, hz, hin,
    jsStartsWith_buy_text, jsStartsWith_buy_text_sell]

/-- Witness for the amended C7 at the upper bound of the zone `[0, 5]`. -/
theorem claim_inside_boundary_inclusive_witness :
    (buildMtf (htfBullFvg 0 5) (ltfBuyAt 5)).executionSignals =
      [{ time := 0, position := "belowBar", color := "#00ff85",
         shape := "arrowUp", text := "BUY (CHOCH + Sweep)",
         reason := "BUY in HTF FVG", price := 5 }] :=
  (claim_inside_boundary_inclusive 0 5 5 (by norm_num) (Or.inr rfl)).2 (by norm_num)

/-- Claim C8: if the first provider yields at least one candle, the
aggregator returns exactly that provider's candles sorted ascending by
time together with that provider's name, independently of every later
provider (none is contacted); and advancing to the next provider
happens only on a transport failure, a non-success status, or an empty
parsed result. -/
theorem claim_fetchKlines_first_provider (name : String) (mapped : List Candle)
    (h : mapped ≠ []) :
    (∀ rest, fetchKlines ({ name := name, outcome := .respOk mapped } :: rest) =
        .ok (sortCandles mapped, name)) ∧
    (sortCandles mapped).Perm mapped ∧
    (sortCandles mapped).Pairwise (fun x y => x.time ≤ y.time) ∧
    (∀ (src : Source) (rest : List Source) (lastErr : Option String),
      (∀ c, src.outcome = .respOk c → c = []) →
      ∃ msg, fetchKlinesGo (src :: rest) lastErr = fetchKlinesGo rest (some msg)) := by
  refine ⟨fun rest => ?_, sortCandles_perm mapped, sortCandles_sorted mapped, ?_⟩
  · have hlen : mapped.length > 0 := List.length_pos.mpr h
    simp [fetchKlines, fetchKlinesGo, hlen]
  · intro src rest lastErr hsoft
    cases hout : src.outcome with
    | fetchError msg => exact ⟨msg, by simp [fetchKlinesGo, hout]⟩
    | httpError status statusText =>
        exact ⟨src.name ++ " responded " ++ toString status ++ " " ++ statusText,
          by simp [fetchKlinesGo, hout]⟩
    | respOk c =>
        have hc : c = [] := hsoft c hout
        exact ⟨src.name ++ " returned empty data",
          by simp [fetchKlinesGo, hout, hc]⟩

/-- Witness for C8: the first provider's two candles come back sorted
with its name, with a second willing provider ignored. -/
theorem claim_fetchKlines_first_provider_witness :
    fetchKlines (srcGood :: [srcBad]) = .ok ([k10, k11], "OKX") := by
  have h := (claim_fetchKlines_first_provider ("OKX") [k10, k11] (by decide)).1 [srcBad]
  have hs : sortCandles [k10, k11] = [k10, k11] :=
    List.mergeSort_of_sorted (by decide)
  rw [hs] at h
  exact h

/-- Claim C9: the detectors, collectors, synthesizer and combiner are
total functions of their inputs (as Lean definitions they cannot raise
exceptions), and absence of a pattern is expressed as `none` or an
empty list: on the empty sequence every detector returns `none` and
every collector returns `[]`, sequences too short for a CHOCH produce
no markers, and an LTF without markers produces no execution signals. -/
theorem claim_pipeline_no_signal_degenerate :
    detectBOS [] = none ∧ detectCHOCH [] = none ∧ detectLiquiditySweep [] = none ∧
    collectFVG [] 60 = [] ∧ collectOrderBlocks [] 60 = [] ∧
    (buildSMCSignals []).candles = [] ∧
    (buildSMCSignals []).markers = [] ∧
    (∀ input : List Candle, input.length < 4 → (buildSMCSignals input).markers = []) ∧
    (∀ htf ltf : TFResult, ltf.markers = [] →
      (buildMtf htf ltf).executionSignals = []) := by
  have hmarkers : ∀ input : List Candle, input.length < 4 →
      (buildSMCSignals input).markers = [] := by
    intro input hlen
    have hslen : (sortCandles input).length < 4 := by
      rw [sortCandles, List.length_mergeSort]
      exact hlen
    have hch : detectCHOCH (sortCandles input) = none :=
      detectCHOCH_eq_none_of_short _ hslen
    have hm : (buildSMCSignals input).markers =
        smcMarkers (sortCandles input).getLast?
          (detectCHOCH (sortCandles input))
          (detectLiquiditySweep (sortCandles input)) := rfl
    rw [hm, hch, smcMarkers_choch_none]
  refine ⟨detectBOS_eq_none_of_short [] (by decide),
    detectCHOCH_eq_none_of_short [] (by decide),
    detectLiquiditySweep_eq_none_of_short [] (by decide),
    rfl, rfl, List.mergeSort_nil, hmarkers [] (by decide), hmarkers, ?_⟩
  intro htf ltf hmk
  show collectExecSignals _ _ _ _ _ _ ltf.markers = []
  rw [hmk]
  exact collectExecSignals_nil _ _ _ _ _ _

/-- Witness for C9: a marker-less LTF yields no execution signals even
against an HTF with a decided bias. -/
theorem claim_pipeline_no_signal_degenerate_witness :
    (buildMtf htfConflict ltfEmpty).executionSignals = [] :=
  claim_pipeline_no_signal_degenerate.2.2.2.2.2.2.2.2 htfConflict ltfEmpty rfl

/-- Claim C10: `buildSMCSignals` analyzes a sorted copy of its input:
the `candles` field of its result is ascending in time and is a
permutation (a copy, the original list being untouched by the pure
embedding) of the input, and every detector and collector result in
the output is the one computed over that sorted copy. -/
theorem claim_buildSMCSignals_sorts (input : List Candle) :
    ((buildSMCSignals input).candles).Pairwise (fun x y => x.time ≤ y.time) ∧
    ((buildSMCSignals input).candles).Perm input ∧
    (buildSMCSignals input).smcSignals.bos =
      detectBOS ((buildSMCSignals input).candles) ∧
    (buildSMCSignals input).smcSignals.choch =
      detectCHOCH ((buildSMCSignals input).candles) ∧
    (buildSMCSignals input).smcSignals.sweep =
      detectLiquiditySweep ((buildSMCSignals input).candles) ∧
    (buildSMCSignals input).fvgZones =
      collectFVG ((buildSMCSignals input).candles) 60 ∧
    (buildSMCSignals input).orderBlocks =
      collectOrderBlocks ((buildSMCSignals input).candles) 60 :=
  ⟨sortCandles_sorted input, sortCandles_perm input, rfl, rfl, rfl, rfl, rfl⟩
